import Mathlib

/-!
Verification of the core logic of the hdx-scraper-iom-missingmigrants
repository: the year-range fetcher (`scrape_data`), the date-range reducer
(`_get_date_range`) and the dataset assembly (`generate_dataset`) of its two
module variants `iom.py` (class `IOM`) and `pipeline.py` (class `Pipeline`).

The embedding is shallow:
  * a JSON row (a Python dict of string fields) is an association list
    `Row := List (String × String)`; `dict.get` is `List.lookup`;
  * `datetime.strptime(s, "%Y-%m-%d")` is `parseDate : String → Option PyDate`,
    modelling CPython's `_strptime` behaviour for that fixed format restricted
    to ASCII digit strings: exactly four year digits, one or two month digits
    (value 1..12), one or two day digits (value at most the month length in the
    proleptic Gregorian calendar), the whole string consumed, year at least 1;
  * uncaught Python exceptions are `Except.error` values of type `PyErr`;
  * Python's builtin `min`/`max` over a non-empty list of datetimes are
    `pyMin`/`pyMax` (first extremum wins); datetime comparison is the numeric
    comparison of `PyDate.key`, which agrees with lexicographic
    year/month/day comparison on calendar-valid dates;
  * the network retriever `Retrieve.download_json` is an injected function
    `fetch : String → Except E (Option (List Row))` (`none` models an absent
    payload, a raised exception is `Except.error`), and `datetime.now().year`
    is an explicit `currentYear` argument.
-/

/-- A calendar date, the relevant fragment of a Python `datetime` object. -/
structure PyDate where
  year : Nat
  month : Nat
  day : Nat
deriving DecidableEq, Repr

/-- Numeric encoding of a date; on calendar-valid dates (month ≤ 12, day ≤ 31)
its order agrees with Python's lexicographic datetime comparison. -/
def PyDate.key (dt : PyDate) : Nat := dt.year * 10000 + dt.month * 100 + dt.day

instance : LE PyDate := ⟨fun a b => a.key ≤ b.key⟩

instance (a b : PyDate) : Decidable (a ≤ b) :=
  inferInstanceAs (Decidable (a.key ≤ b.key))

/-- Month and day fields are inside calendar bounds (established for every
date produced by `parseDate`). -/
def PyDate.valid (dt : PyDate) : Prop :=
  1 ≤ dt.month ∧ dt.month ≤ 12 ∧ 1 ≤ dt.day ∧ dt.day ≤ 31

/-- Proleptic Gregorian leap-year rule, as used by Python's `datetime`. -/
def isLeap (y : Nat) : Bool :=
  y % 4 == 0 && (y % 100 != 0 || y % 400 == 0)

/-- Number of days of month `m` in year `y` (Python `calendar`/`datetime`). -/
def daysInMonth (y m : Nat) : Nat :=
  if m = 2 then (if isLeap y then 29 else 28)
  else if m = 4 ∨ m = 6 ∨ m = 9 ∨ m = 11 then 30
  else 31

/-- Split a character list at every hyphen (the separator structure of the
`"%Y-%m-%d"` format): `splitDash "a-b"` is `[[a], [b]]`, and the empty group
list is never produced. -/
def splitDash : List Char → List (List Char)
  | [] => [[]]
  | c :: cs =>
    if c = '-' then [] :: splitDash cs
    else
      match splitDash cs with
      | [] => [[c]]
      | g :: gs => (c :: g) :: gs

/-- Decimal value of a non-empty all-digit character group (leading zeros
allowed, as in `strptime`); `none` otherwise. -/
def digitsVal? (cs : List Char) : Option Nat :=
  if cs ≠ [] ∧ cs.all Char.isDigit then
    some (cs.foldl (fun n c => n * 10 + (c.toNat - 48)) 0)
  else none

/-- `datetime.strptime(s, "%Y-%m-%d")`, returning `none` where Python raises
`ValueError`: exactly four year digits, one or two month digits with value
1..12, one or two day digits with value 1..`daysInMonth`, nothing left over,
year at least 1 (Python's `MINYEAR`). -/
def parseDate (s : String) : Option PyDate :=
  match splitDash s.toList with
  | [ys, ms, ds] =>
    if ys.length = 4 ∧ 1 ≤ ms.length ∧ ms.length ≤ 2 ∧ 1 ≤ ds.length ∧ ds.length ≤ 2 then
      match digitsVal? ys, digitsVal? ms, digitsVal? ds with
      | some y, some m, some d =>
        if 1 ≤ y ∧ 1 ≤ m ∧ m ≤ 12 ∧ 1 ≤ d ∧ d ≤ daysInMonth y m then
          some ⟨y, m, d⟩
        else none
      | _, _, _ => none
    else none
  | _ => none

/-- A JSON row record: a Python dict from field name to string value,
in insertion order. -/
abbrev Row := List (String × String)

/-- An uncaught Python exception. -/
inductive PyErr where
  | valueError (msg : String)
  | indexError (msg : String)
deriving DecidableEq, Repr

/-- Python's builtin `min` on the non-empty datetime list `d :: ds`:
scan left to right, replace the current minimum only on strictly smaller
(the first minimum wins). -/
def pyMin (d : PyDate) (ds : List PyDate) : PyDate :=
  match ds with
  | [] => d
  | b :: bs => pyMin (if b.key < d.key then b else d) bs

/-- Python's builtin `max` on the non-empty datetime list `d :: ds`:
scan left to right, replace the current maximum only on strictly greater
(the first maximum wins). -/
def pyMax (d : PyDate) (ds : List PyDate) : PyDate :=
  match ds with
  | [] => d
  | b :: bs => pyMax (if d.key < b.key then b else d) bs

namespace IOM

/-- `IOM._DATE_FIELD` (iom.py line 15). -/
def DATE_FIELD : String := "reported_date"

/-- `IOM._FILENAME` (iom.py line 16). -/
def FILENAME : String := "iom-missing-migrants-project-data.csv"

/-- `IOM._LOCATION` (iom.py line 17). -/
def LOCATION : String := "world"

/-- `IOM._OUTPUT_FORMAT` (iom.py line 18). -/
def OUTPUT_FORMAT : String := "json"

/-- `IOM._HXLTAGS` (iom.py lines 19-39). -/
def HXLTAGS : List (String × String) :=
  [("web_id", "#web+id"),
   ("region", "#region+name"),
   ("reported_date", "#date+reported"),
   ("number_dead", "#affected+killed"),
   ("number_missing", "#affected+missing"),
   ("total_dead_and_missing", "#affected+killed+missing+total"),
   ("number_of_survivors", "#affected+survivors"),
   ("number_of_female", "#affected+f"),
   ("number_of_male", "#affected+m"),
   ("number_of_children", "#affected+children"),
   ("cause_death", "#cause+type"),
   ("country_of_incident", "#country+event"),
   ("location_description", "#loc+description"),
   ("unsd_geographic_grouping", "#region+unsd+name"),
   ("location_coodinates", "#geo+coord"),
   ("migration_route", "#route+description"),
   ("information_source", "#meta+source+name"),
   ("url", "#meta+url"),
   ("source_quality", "#meta+source+quality")]

/-- The query URL for one year: the f-string
`f"{data_url}/{year}/{self._OUTPUT_FORMAT}"` of iom.py line 70. -/
def mkUrl (baseUrl : String) (year : Nat) : String :=
  baseUrl ++ "/" ++ toString year ++ "/" ++ OUTPUT_FORMAT

/-- The queried year list `[year for year in range(2014, datetime.now().year + 1)]`
of iom.py lines 64-66, with `datetime.now().year` passed in as `currentYear`. -/
def years (currentYear : Nat) : List Nat :=
  List.range' 2014 (currentYear + 1 - 2014)

/-- The per-year loop of `IOM.scrape_data` (iom.py lines 68-77), instrumented
with the list of URLs requested so far: for each year build the URL, call the
retriever (an exception propagates, ending the loop), skip a falsy payload
(`None` or the empty list), otherwise extend the accumulator with the rows. -/
def scrapeLoop {E : Type} (fetch : String → Except E (Option (List Row)))
    (baseUrl : String) : List Nat → List Row → List String × Except E (List Row)
  | [], acc => ([], Except.ok acc)
  | y :: ys, acc =>
    match fetch (mkUrl baseUrl y) with
    | Except.error e => ([mkUrl baseUrl y], Except.error e)
    | Except.ok none =>
      ((mkUrl baseUrl y) :: (scrapeLoop fetch baseUrl ys acc).1,
       (scrapeLoop fetch baseUrl ys acc).2)
    | Except.ok (some data) =>
      if data.isEmpty then
        ((mkUrl baseUrl y) :: (scrapeLoop fetch baseUrl ys acc).1,
         (scrapeLoop fetch baseUrl ys acc).2)
      else
        ((mkUrl baseUrl y) :: (scrapeLoop fetch baseUrl ys (acc ++ data)).1,
         (scrapeLoop fetch baseUrl ys (acc ++ data)).2)

/-- `IOM.scrape_data` (iom.py lines 49-77) together with the trace of
requested URLs. -/
def scrapeDataT {E : Type} (fetch : String → Except E (Option (List Row)))
    (baseUrl : String) (currentYear : Nat) : List String × Except E (List Row) :=
  scrapeLoop fetch baseUrl (years currentYear) []

/-- `IOM.scrape_data` (iom.py lines 49-77): the returned aggregate row list,
or the propagated retriever exception. -/
def scrapeData {E : Type} (fetch : String → Except E (Option (List Row)))
    (baseUrl : String) (currentYear : Nat) : Except E (List Row) :=
  (scrapeDataT fetch baseUrl currentYear).2

/-- The date-collection loop of `IOM._get_date_range` (iom.py lines 132-139):
first component the successfully parsed dates in scan order, second component
the diagnostics printed for unparseable non-empty date strings (the trailing
exception text of the Python message is elided). A row whose `reported_date`
is absent or falsy (the empty string) is skipped silently. -/
def collectDates : List Row → List PyDate × List String
  | [] => ([], [])
  | row :: rest =>
    match List.lookup DATE_FIELD row with
    | none => collectDates rest
    | some s =>
      if s = "" then collectDates rest
      else
        match parseDate s with
        | some dt => (dt :: (collectDates rest).1, (collectDates rest).2)
        | none => ((collectDates rest).1, ("Error parsing date " ++ s) :: (collectDates rest).2)

/-- The per-row outcome of one iteration of the loop above: the date the row
contributes to the range, if any. -/
def rowDate? (row : Row) : Option PyDate :=
  match List.lookup DATE_FIELD row with
  | none => none
  | some s => if s = "" then none else parseDate s

/-- `IOM._get_date_range` (iom.py lines 127-144): `min`/`max` over the parsed
dates, packed as the `(min_date, max_date)` pair of the returned dict; on an
empty parsed-date list Python's `min` raises an uncaught `ValueError`. -/
def getDateRange (rows : List Row) : Except PyErr (PyDate × PyDate) :=
  match (collectDates rows).1 with
  | [] => Except.error (PyErr.valueError "min() arg is an empty sequence")
  | d :: ds => Except.ok (pyMin d ds, pyMax d ds)

/-- The dataset object assembled by `IOM.generate_dataset`, restricted to the
fields that method sets (iom.py lines 79-120). -/
structure DatasetInfo where
  name : String
  title : String
  startDate : PyDate
  endDate : PyDate
  location : String
  tags : List String
  hxltags : List (String × String)
  resourceName : String
  headers : List String
  resourceRows : List Row
deriving Repr

/-- `IOM.generate_dataset` (iom.py lines 79-120): build the dataset shell,
compute the date range (an exception propagates), stamp the time period,
location and tags, then generate the resource whose header list is the key
list of the first row (`data_by_year_list[0]` raises `IndexError` on an empty
list) and whose rows are the aggregate row list unchanged. `tags` is the
`fixed_tags` configuration value captured by `_create_tags` (iom.py 122-125). -/
def generateDataset (tags : List String) (rows : List Row) :
    Except PyErr DatasetInfo :=
  match getDateRange rows with
  | Except.error e => Except.error e
  | Except.ok (mn, mx) =>
    match rows with
    | [] => Except.error (PyErr.indexError "list index out of range")
    | r :: _ =>
      Except.ok
        { name := "missing-migrants-project-data"
          title := "Missing Migrants Project Data"
          startDate := mn
          endDate := mx
          location := LOCATION
          tags := tags
          hxltags := HXLTAGS
          resourceName := FILENAME
          headers := r.map Prod.fst
          resourceRows := rows }

end IOM

namespace Pipeline

/-- `self._DATE_FIELD` (pipeline.py line 21). -/
def DATE_FIELD : String := "reported_date"

/-- `self._OUTPUT_FORMAT` (pipeline.py line 24). -/
def OUTPUT_FORMAT : String := "json"

/-- The query URL for one year: the f-string of pipeline.py line 47. -/
def mkUrl (baseUrl : String) (year : Nat) : String :=
  baseUrl ++ "/" ++ toString year ++ "/" ++ OUTPUT_FORMAT

/-- The queried year list of pipeline.py lines 41-43. -/
def years (currentYear : Nat) : List Nat :=
  List.range' 2014 (currentYear + 1 - 2014)

/-- The per-year loop of `Pipeline.scrape_data` (pipeline.py lines 45-54),
instrumented with the list of URLs requested so far. -/
def scrapeLoop {E : Type} (fetch : String → Except E (Option (List Row)))
    (baseUrl : String) : List Nat → List Row → List String × Except E (List Row)
  | [], acc => ([], Except.ok acc)
  | y :: ys, acc =>
    match fetch (mkUrl baseUrl y) with
    | Except.error e => ([mkUrl baseUrl y], Except.error e)
    | Except.ok none =>
      ((mkUrl baseUrl y) :: (scrapeLoop fetch baseUrl ys acc).1,
       (scrapeLoop fetch baseUrl ys acc).2)
    | Except.ok (some data) =>
      if data.isEmpty then
        ((mkUrl baseUrl y) :: (scrapeLoop fetch baseUrl ys acc).1,
         (scrapeLoop fetch baseUrl ys acc).2)
      else
        ((mkUrl baseUrl y) :: (scrapeLoop fetch baseUrl ys (acc ++ data)).1,
         (scrapeLoop fetch baseUrl ys (acc ++ data)).2)

/-- `Pipeline.scrape_data` (pipeline.py lines 26-54): the returned aggregate
row list, or the propagated retriever exception. -/
def scrapeData {E : Type} (fetch : String → Except E (Option (List Row)))
    (baseUrl : String) (currentYear : Nat) : Except E (List Row) :=
  (scrapeLoop fetch baseUrl (years currentYear) []).2

/-- The date-collection loop of `Pipeline._get_date_range`
(pipeline.py lines 105-112). -/
def collectDates : List Row → List PyDate × List String
  | [] => ([], [])
  | row :: rest =>
    match List.lookup DATE_FIELD row with
    | none => collectDates rest
    | some s =>
      if s = "" then collectDates rest
      else
        match parseDate s with
        | some dt => (dt :: (collectDates rest).1, (collectDates rest).2)
        | none => ((collectDates rest).1, ("Error parsing date " ++ s) :: (collectDates rest).2)

/-- `Pipeline._get_date_range` (pipeline.py lines 100-117). -/
def getDateRange (rows : List Row) : Except PyErr (PyDate × PyDate) :=
  match (collectDates rows).1 with
  | [] => Except.error (PyErr.valueError "min() arg is an empty sequence")
  | d :: ds => Except.ok (pyMin d ds, pyMax d ds)

end Pipeline

lemma pyMin_mem (d : PyDate) (ds : List PyDate) : pyMin d ds ∈ d :: ds := by
  induction ds generalizing d with
  | nil => simp [pyMin]
  | cons b bs ih =>
    have h := ih (if b.key < d.key then b else d)
    simp only [pyMin]
    rcases List.mem_cons.1 h with h1 | h2
    · rw [h1]
      split
      · exact List.mem_cons_of_mem _ (List.mem_cons_self _ _)
      · exact List.mem_cons_self _ _
    · exact List.mem_cons_of_mem _ (List.mem_cons_of_mem _ h2)

lemma pyMin_key_le (d : PyDate) (ds : List PyDate) :
    ∀ x ∈ d :: ds, (pyMin d ds).key ≤ x.key := by
  induction ds generalizing d with
  | nil =>
    intro x hx
    simp only [List.mem_singleton] at hx
    simp [pyMin, hx]
  | cons b bs ih =>
    intro x hx
    simp only [pyMin]
    have hmin : (pyMin (if b.key < d.key then b else d) bs).key ≤
        (if b.key < d.key then b else d).key :=
      ih _ _ (List.mem_cons_self _ _)
    rcases List.mem_cons.1 hx with h1 | h2
    · have hle : (if b.key < d.key then b else d).key ≤ d.key := by
        split <;> omega
      rw [h1]
      exact le_trans hmin hle
    · rcases List.mem_cons.1 h2 with hb | hbs
      · have hle : (if b.key < d.key then b else d).key ≤ b.key := by
          split <;> omega
        rw [hb]
        exact le_trans hmin hle
      · exact ih _ x (List.mem_cons_of_mem _ hbs)

lemma pyMax_mem (d : PyDate) (ds : List PyDate) : pyMax d ds ∈ d :: ds := by
  induction ds generalizing d with
  | nil => simp [pyMax]
  | cons b bs ih =>
    have h := ih (if d.key < b.key then b else d)
    simp only [pyMax]
    rcases List.mem_cons.1 h with h1 | h2
    · rw [h1]
      split
      · exact List.mem_cons_of_mem _ (List.mem_cons_self _ _)
      · exact List.mem_cons_self _ _
    · exact List.mem_cons_of_mem _ (List.mem_cons_of_mem _ h2)

lemma pyMax_key_ge (d : PyDate) (ds : List PyDate) :
    ∀ x ∈ d :: ds, x.key ≤ (pyMax d ds).key := by
  induction ds generalizing d with
  | nil =>
    intro x hx
    simp only [List.mem_singleton] at hx
    simp [pyMax, hx]
  | cons b bs ih =>
    intro x hx
    simp only [pyMax]
    have hmax : (if d.key < b.key then b else d).key ≤
        (pyMax (if d.key < b.key then b else d) bs).key :=
      ih _ _ (List.mem_cons_self _ _)
    rcases List.mem_cons.1 hx with h1 | h2
    · have hle : d.key ≤ (if d.key < b.key then b else d).key := by
        split <;> omega
      rw [h1]
      exact le_trans hle hmax
    · rcases List.mem_cons.1 h2 with hb | hbs
      · have hle : b.key ≤ (if d.key < b.key then b else d).key := by
          split <;> omega
        rw [hb]
        exact le_trans hle hmax
      · exact ih _ x (List.mem_cons_of_mem _ hbs)

lemma pyDate_key_inj {a b : PyDate} (ha : a.valid) (hb : b.valid)
    (h : a.key = b.key) : a = b := by
  obtain ⟨ay, am, ad⟩ := a
  obtain ⟨cy, cm, cd⟩ := b
  simp only [PyDate.valid] at ha hb
  simp only [PyDate.key] at h
  simp only [PyDate.mk.injEq]
  omega

lemma daysInMonth_le_31 (y m : Nat) : daysInMonth y m ≤ 31 := by
  unfold daysInMonth
  split
  · split <;> omega
  · split <;> omega

lemma parseDate_valid {s : String} {dt : PyDate}
    (h : parseDate s = some dt) : dt.valid := by
  unfold parseDate at h
  split at h
  · split at h
    · split at h
      · split at h
        · rename_i hcond
          cases h
          exact ⟨hcond.2.1, hcond.2.2.1, hcond.2.2.2.1,
            le_trans hcond.2.2.2.2 (daysInMonth_le_31 _ _)⟩
        · cases h
      · cases h
    · cases h
  · cases h

lemma IOM.collectDates_fst (rows : List Row) :
    (IOM.collectDates rows).1 = rows.filterMap IOM.rowDate? := by
  induction rows with
  | nil => rfl
  | cons r rest ih =>
    cases hl : List.lookup IOM.DATE_FIELD r with
    | none => simp [IOM.collectDates, IOM.rowDate?, hl, ih]
    | some s =>
      by_cases hs : s = ""
      · subst hs
        simp [IOM.collectDates, IOM.rowDate?, hl, ih]
      · cases hp : parseDate s with
        | none => simp [IOM.collectDates, IOM.rowDate?, hl, hs, hp, ih]
        | some dt => simp [IOM.collectDates, IOM.rowDate?, hl, hs, hp, ih]

lemma IOM.collectDates_fst_valid (rows : List Row) :
    ∀ dt ∈ (IOM.collectDates rows).1, dt.valid := by
  intro dt hdt
  rw [IOM.collectDates_fst] at hdt
  obtain ⟨row, _, hr⟩ := List.mem_filterMap.1 hdt
  unfold IOM.rowDate? at hr
  split at hr
  · cases hr
  · split at hr
    · cases hr
    · exact parseDate_valid hr

lemma IOM.getDateRange_ok (rows : List Row) (d : PyDate) (ds : List PyDate)
    (h : (IOM.collectDates rows).1 = d :: ds) :
    IOM.getDateRange rows = Except.ok (pyMin d ds, pyMax d ds) := by
  unfold IOM.getDateRange
  rw [h]

lemma IOM.getDateRange_empty (rows : List Row)
    (h : (IOM.collectDates rows).1 = []) :
    IOM.getDateRange rows =
      Except.error (PyErr.valueError "min() arg is an empty sequence") := by
  unfold IOM.getDateRange
  rw [h]

lemma IOM.scrapeLoop_pure (g : String → Option (List Row)) (baseUrl : String) :
    ∀ (ys : List Nat) (acc : List Row),
      IOM.scrapeLoop (fun u => (Except.ok (g u) : Except Empty (Option (List Row))))
          baseUrl ys acc
        = (ys.map (IOM.mkUrl baseUrl),
           Except.ok (acc ++ (ys.map (fun y => (g (IOM.mkUrl baseUrl y)).getD [])).flatten)) := by
  intro ys
  induction ys with
  | nil => intro acc; simp [IOM.scrapeLoop]
  | cons y ys ih =>
    intro acc
    simp only [IOM.scrapeLoop]
    cases hg : g (IOM.mkUrl baseUrl y) with
    | none => simp [hg, ih]
    | some data =>
      by_cases hd : data.isEmpty
      · have hnil : data = [] := List.isEmpty_iff.1 hd
        subst hnil
        simp [hg, ih]
      · simp [hg, hd, ih, List.append_assoc]

/-- Claim C2: for every sequence of per-year fetch results (a non-failing
fetch function `g`), the aggregate row collection returned by `scrape_data`
is exactly the flattening, in the (ascending) order of the queried year list,
of the per-year row lists, with empty (`some []`) or absent (`none`) per-year
results contributing nothing; no deduplication, reordering or per-row
modification occurs. -/
theorem c2_scrapeData_concat_in_year_order (baseUrl : String) (currentYear : Nat)
    (g : String → Option (List Row)) :
    IOM.scrapeData (fun u => (Except.ok (g u) : Except Empty (Option (List Row))))
        baseUrl currentYear
      = Except.ok (((IOM.years currentYear).map
          (fun y => (g (IOM.mkUrl baseUrl y)).getD [])).flatten)
    ∧ List.Pairwise (· < ·) (IOM.years currentYear) := by
  constructor
  · unfold IOM.scrapeData IOM.scrapeDataT
    rw [IOM.scrapeLoop_pure]
    simp
  · exact List.pairwise_lt_range' 2014 (currentYear + 1 - 2014)

/-- Claim C7: with a non-failing fetch, `scrape_data` issues exactly one
request per queried year, in list order; the queried year list is exactly
the ascending range 2014 .. `currentYear` inclusive; and each request URL is
the base URL followed by "/", the year, "/" and the fixed output-format
token "json". -/
theorem c7_scrapeData_years_and_urls (baseUrl : String) (currentYear : Nat)
    (g : String → Option (List Row)) :
    (IOM.scrapeDataT (fun u => (Except.ok (g u) : Except Empty (Option (List Row))))
        baseUrl currentYear).1
      = (IOM.years currentYear).map (IOM.mkUrl baseUrl)
    ∧ (∀ y, y ∈ IOM.years currentYear ↔ 2014 ≤ y ∧ y ≤ currentYear)
    ∧ List.Pairwise (· < ·) (IOM.years currentYear)
    ∧ (∀ y, IOM.mkUrl baseUrl y = baseUrl ++ "/" ++ toString y ++ "/" ++ "json") := by
  refine ⟨?_, ?_, List.pairwise_lt_range' _ _, fun y => rfl⟩
  · unfold IOM.scrapeDataT
    rw [IOM.scrapeLoop_pure]
  · intro y
    unfold IOM.years
    rw [List.mem_range'_1]
    omega

lemma IOM.scrapeLoop_error {E : Type} (fetch : String → Except E (Option (List Row)))
    (baseUrl : String) :
    ∀ (ys : List Nat) (acc : List Row),
      (∀ e, (IOM.scrapeLoop fetch baseUrl ys acc).2 = Except.error e →
         ∃ y ∈ ys, fetch (IOM.mkUrl baseUrl y) = Except.error e)
    ∧ ((∃ y ∈ ys, ∃ e, fetch (IOM.mkUrl baseUrl y) = Except.error e) →
         ∃ e, (IOM.scrapeLoop fetch baseUrl ys acc).2 = Except.error e) := by
  intro ys
  induction ys with
  | nil =>
    intro acc
    constructor
    · intro e he
      simp [IOM.scrapeLoop] at he
    · rintro ⟨y, hy, -⟩
      simp at hy
  | cons y ys ih =>
    intro acc
    constructor
    · intro e he
      cases hf : fetch (IOM.mkUrl baseUrl y) with
      | error e0 =>
        simp only [IOM.scrapeLoop, hf] at he
        cases he
        exact ⟨y, List.mem_cons_self _ _, hf⟩
      | ok v =>
        cases v with
        | none =>
          simp only [IOM.scrapeLoop, hf] at he
          obtain ⟨y', hy', hf'⟩ := (ih acc).1 e he
          exact ⟨y', List.mem_cons_of_mem _ hy', hf'⟩
        | some data =>
          cases hd : data.isEmpty with
          | true =>
            simp only [IOM.scrapeLoop, hf, hd, if_true] at he
            obtain ⟨y', hy', hf'⟩ := (ih acc).1 e he
            exact ⟨y', List.mem_cons_of_mem _ hy', hf'⟩
          | false =>
            simp only [IOM.scrapeLoop, hf, hd, Bool.false_eq_true, if_false] at he
            obtain ⟨y', hy', hf'⟩ := (ih (acc ++ data)).1 e he
            exact ⟨y', List.mem_cons_of_mem _ hy', hf'⟩
    · rintro ⟨y', hy', e, hfe⟩
      rcases List.mem_cons.1 hy' with h1 | h2
      · subst h1
        exact ⟨e, by simp [IOM.scrapeLoop, hfe]⟩
      · cases hf : fetch (IOM.mkUrl baseUrl y) with
        | error e0 => exact ⟨e0, by simp [IOM.scrapeLoop, hf]⟩
        | ok v =>
          cases v with
          | none =>
            obtain ⟨e1, he1⟩ := (ih acc).2 ⟨y', h2, e, hfe⟩
            exact ⟨e1, by simpa [IOM.scrapeLoop, hf] using he1⟩
          | some data =>
            cases hd : data.isEmpty with
            | true =>
              obtain ⟨e1, he1⟩ := (ih acc).2 ⟨y', h2, e, hfe⟩
              exact ⟨e1, by simpa [IOM.scrapeLoop, hf, hd] using he1⟩
            | false =>
              obtain ⟨e1, he1⟩ := (ih (acc ++ data)).2 ⟨y', h2, e, hfe⟩
              exact ⟨e1, by simpa [IOM.scrapeLoop, hf, hd] using he1⟩

/-- Claim C8: `scrape_data` fails exactly when the injected fetch capability
fails on one of the queried URLs, and a surfaced failure propagates unchanged
(the returned error is the fetch capability's own error value for a queried
year); an empty or absent per-year payload never produces an error. -/
theorem c8_scrapeData_fails_iff_fetch_fails (E : Type)
    (fetch : String → Except E (Option (List Row)))
    (baseUrl : String) (currentYear : Nat) :
    ((∃ e, IOM.scrapeData fetch baseUrl currentYear = Except.error e) ↔
       ∃ y ∈ IOM.years currentYear, ∃ e, fetch (IOM.mkUrl baseUrl y) = Except.error e)
  ∧ (∀ e, IOM.scrapeData fetch baseUrl currentYear = Except.error e →
       ∃ y ∈ IOM.years currentYear, fetch (IOM.mkUrl baseUrl y) = Except.error e) := by
  have h := IOM.scrapeLoop_error fetch baseUrl (IOM.years currentYear) []
  refine ⟨⟨?_, h.2⟩, h.1⟩
  rintro ⟨e, he⟩
  obtain ⟨y, hy, hf⟩ := h.1 e he
  exact ⟨y, hy, e, hf⟩

/-- Witness for C8 at a concrete failing fetch: the run's error is the fetch
error of a queried year. -/
theorem c8_witness :
    ∃ y ∈ IOM.years 2016,
      (fun u => if u = "b/2015/json"
          then (Except.error "boom" : Except String (Option (List Row)))
          else Except.ok none) (IOM.mkUrl "b" y)
        = Except.error "boom" :=
  (c8_scrapeData_fails_iff_fetch_fails String
    (fun u => if u = "b/2015/json"
        then (Except.error "boom" : Except String (Option (List Row)))
        else Except.ok none) "b" 2016).2 "boom" rfl

lemma mkUrl_eq (baseUrl : String) (y : Nat) :
    Pipeline.mkUrl baseUrl y = IOM.mkUrl baseUrl y := rfl

lemma scrapeLoop_eq {E : Type} (fetch : String → Except E (Option (List Row)))
    (baseUrl : String) :
    ∀ (ys : List Nat) (acc : List Row),
      IOM.scrapeLoop fetch baseUrl ys acc = Pipeline.scrapeLoop fetch baseUrl ys acc := by
  intro ys
  induction ys with
  | nil => intro acc; rfl
  | cons y ys ih =>
    intro acc
    simp only [IOM.scrapeLoop, Pipeline.scrapeLoop, mkUrl_eq]
    cases hf : fetch (IOM.mkUrl baseUrl y) with
    | error e => rfl
    | ok v =>
      cases v with
      | none => simp [ih]
      | some data =>
        cases hd : data.isEmpty <;> simp [hd, ih]

lemma collectDates_eq (rows : List Row) :
    IOM.collectDates rows = Pipeline.collectDates rows := by
  induction rows with
  | nil => rfl
  | cons r rest ih =>
    have hfield : Pipeline.DATE_FIELD = IOM.DATE_FIELD := rfl
    cases hl : List.lookup IOM.DATE_FIELD r with
    | none => simp [IOM.collectDates, Pipeline.collectDates, hfield, hl, ih]
    | some s =>
      by_cases hs : s = ""
      · subst hs
        simp [IOM.collectDates, Pipeline.collectDates, hfield, hl, ih]
      · cases hp : parseDate s with
        | none => simp [IOM.collectDates, Pipeline.collectDates, hfield, hl, hs, hp, ih]
        | some dt => simp [IOM.collectDates, Pipeline.collectDates, hfield, hl, hs, hp, ih]

/-- Claim C9: the two module variants implement the same core logic — for
identical configuration (base URL), injected fetch capability and current
year, `IOM.scrape_data` and `Pipeline.scrape_data` return the same aggregate
row collection (or the same propagated error), and on every input row
collection `IOM._get_date_range` and `Pipeline._get_date_range` return the
same date range (or the same error). -/
theorem c9_iom_pipeline_equivalent :
    (∀ (E : Type) (fetch : String → Except E (Option (List Row)))
       (baseUrl : String) (currentYear : Nat),
       IOM.scrapeData fetch baseUrl currentYear
         = Pipeline.scrapeData fetch baseUrl currentYear)
  ∧ (∀ rows : List Row, IOM.getDateRange rows = Pipeline.getDateRange rows) := by
  constructor
  · intro E fetch baseUrl currentYear
    unfold IOM.scrapeData IOM.scrapeDataT Pipeline.scrapeData
    rw [scrapeLoop_eq]
    rfl
  · intro rows
    unfold IOM.getDateRange Pipeline.getDateRange
    rw [collectDates_eq]

/-- Claim C3: if at least one row has a usable date (present, non-empty,
strictly parseable), `_get_date_range` succeeds with a pair `(mn, mx)` such
that both are among the successfully parsed dates, `mn` is at most every
parsed date and `mx` is at least every parsed date. -/
theorem c3_getDateRange_min_max (rows : List Row)
    (h : ∃ row ∈ rows, (IOM.rowDate? row).isSome) :
    ∃ mn mx, IOM.getDateRange rows = Except.ok (mn, mx) ∧
      mn ∈ (IOM.collectDates rows).1 ∧ mx ∈ (IOM.collectDates rows).1 ∧
      ∀ dt ∈ (IOM.collectDates rows).1, mn ≤ dt ∧ dt ≤ mx := by
  have hne : (IOM.collectDates rows).1 ≠ [] := by
    rw [IOM.collectDates_fst]
    obtain ⟨row, hrow, hsome⟩ := h
    intro hnil
    rw [List.filterMap_eq_nil_iff] at hnil
    rw [hnil row hrow] at hsome
    simp at hsome
  cases hc : (IOM.collectDates rows).1 with
  | nil => exact absurd hc hne
  | cons d ds =>
    refine ⟨pyMin d ds, pyMax d ds, IOM.getDateRange_ok rows d ds hc, ?_, ?_, ?_⟩
    · exact pyMin_mem d ds
    · exact pyMax_mem d ds
    · intro dt hdt
      exact ⟨pyMin_key_le d ds dt hdt, pyMax_key_ge d ds dt hdt⟩

/-- Witness for C3 at a concrete two-row collection. -/
theorem c3_witness :
    ∃ mn mx,
      IOM.getDateRange
          [[("reported_date", "2014-12-31")], [("reported_date", "2013-01-02")]]
        = Except.ok (mn, mx) ∧
      mn ∈ (IOM.collectDates
          [[("reported_date", "2014-12-31")], [("reported_date", "2013-01-02")]]).1 ∧
      mx ∈ (IOM.collectDates
          [[("reported_date", "2014-12-31")], [("reported_date", "2013-01-02")]]).1 ∧
      ∀ dt ∈ (IOM.collectDates
          [[("reported_date", "2014-12-31")], [("reported_date", "2013-01-02")]]).1,
        mn ≤ dt ∧ dt ≤ mx :=
  c3_getDateRange_min_max
    [[("reported_date", "2014-12-31")], [("reported_date", "2013-01-02")]]
    (by decide)

lemma IOM.collectDates_insert_none (l1 l2 : List Row) (bad : Row)
    (h : IOM.rowDate? bad = none) :
    (IOM.collectDates (l1 ++ bad :: l2)).1 = (IOM.collectDates (l1 ++ l2)).1 := by
  rw [IOM.collectDates_fst, IOM.collectDates_fst]
  simp [List.filterMap_append, List.filterMap_cons, h]

/-- Claim C5: inserting, at any position, a row whose date field holds a
non-empty unparseable string into a collection with at least one valid date
leaves the `_get_date_range` result unchanged. -/
theorem c5_malformed_date_idempotent (l1 l2 : List Row) (bad : Row) (s : String)
    (hlookup : List.lookup IOM.DATE_FIELD bad = some s) (hs : s ≠ "")
    (hparse : parseDate s = none)
    (hvalid : ∃ row ∈ l1 ++ l2, (IOM.rowDate? row).isSome) :
    IOM.getDateRange (l1 ++ bad :: l2) = IOM.getDateRange (l1 ++ l2) := by
  have hbad : IOM.rowDate? bad = none := by
    unfold IOM.rowDate?
    rw [hlookup]
    simp [hs, hparse]
  unfold IOM.getDateRange
  rw [IOM.collectDates_insert_none l1 l2 bad hbad]

/-- Witness for C5: injecting a "not-a-date" row into a one-row valid
collection leaves the date range unchanged. -/
theorem c5_witness :
    IOM.getDateRange
        ([[("reported_date", "2014-12-31")]] ++
          [("reported_date", "not-a-date")] :: [])
      = IOM.getDateRange ([[("reported_date", "2014-12-31")]] ++ []) :=
  c5_malformed_date_idempotent [[("reported_date", "2014-12-31")]] []
    [("reported_date", "not-a-date")] "not-a-date"
    (by decide) (by decide) (by decide) (by decide)

/-- Claim C6: during the date-range scan a row with an absent or empty date
field is skipped silently (no diagnostic); a row whose non-empty date string
fails strict parsing is skipped with exactly one non-fatal diagnostic, is
excluded from the parsed-date list, and never aborts the scan (the scan
result is that of the remaining rows); and the aggregate row collection
handed to resource generation by `generate_dataset` is the input row list
unchanged, malformed rows included. -/
theorem c6_skip_semantics (row : Row) (rest : List Row) :
    (List.lookup IOM.DATE_FIELD row = none →
       IOM.collectDates (row :: rest) = IOM.collectDates rest)
  ∧ (List.lookup IOM.DATE_FIELD row = some "" →
       IOM.collectDates (row :: rest) = IOM.collectDates rest)
  ∧ (∀ s, List.lookup IOM.DATE_FIELD row = some s → s ≠ "" → parseDate s = none →
       (IOM.collectDates (row :: rest)).1 = (IOM.collectDates rest).1 ∧
       (IOM.collectDates (row :: rest)).2
         = ("Error parsing date " ++ s) :: (IOM.collectDates rest).2)
  ∧ (∀ (tags : List String) (info : IOM.DatasetInfo),
       IOM.generateDataset tags (row :: rest) = Except.ok info →
       info.resourceRows = row :: rest) := by
  refine ⟨?_, ?_, ?_, ?_⟩
  · intro h
    simp [IOM.collectDates, h]
  · intro h
    simp [IOM.collectDates, h]
  · intro s h hs hp
    constructor <;> simp [IOM.collectDates, h, hs, hp]
  · intro tags info h
    unfold IOM.generateDataset at h
    split at h
    · cases h
    · split at h
      · cases h
      · cases h
        rfl

/-- Witness for C6: the malformed row contributes no date, one diagnostic,
and stays in the rows handed to the resource. -/
theorem c6_witness :
    (IOM.collectDates
        [[("reported_date", "not-a-date")], [("reported_date", "2014-12-31")]]).1
      = (IOM.collectDates [[("reported_date", "2014-12-31")]]).1
  ∧ (IOM.collectDates
        [[("reported_date", "not-a-date")], [("reported_date", "2014-12-31")]]).2
      = ("Error parsing date " ++ "not-a-date")
          :: (IOM.collectDates [[("reported_date", "2014-12-31")]]).2
  ∧ ∃ info,
      IOM.generateDataset ["migration"]
          [[("reported_date", "not-a-date")], [("reported_date", "2014-12-31")]]
        = Except.ok info ∧
      info.resourceRows
        = [[("reported_date", "not-a-date")], [("reported_date", "2014-12-31")]] := by
  have h3 := (c6_skip_semantics [("reported_date", "not-a-date")]
    [[("reported_date", "2014-12-31")]]).2.2.1 "not-a-date" (by decide) (by decide) (by decide)
  have h4 := (c6_skip_semantics [("reported_date", "not-a-date")]
    [[("reported_date", "2014-12-31")]]).2.2.2 ["migration"]
  exact ⟨h3.1, h3.2, _, rfl, h4 _ rfl⟩

lemma pyMin_eq_of_perm {d d' : PyDate} {ds ds' : List PyDate}
    (hperm : List.Perm (d :: ds) (d' :: ds'))
    (hvalid : ∀ x ∈ d :: ds, x.valid) (hvalid' : ∀ x ∈ d' :: ds', x.valid) :
    pyMin d ds = pyMin d' ds' := by
  have ha := pyMin_mem d ds
  have hb := pyMin_mem d' ds'
  have hab : pyMin d ds ∈ d' :: ds' := hperm.mem_iff.1 ha
  have hba : pyMin d' ds' ∈ d :: ds := hperm.mem_iff.2 hb
  have h1 : (pyMin d ds).key ≤ (pyMin d' ds').key := pyMin_key_le d ds _ hba
  have h2 : (pyMin d' ds').key ≤ (pyMin d ds).key := pyMin_key_le d' ds' _ hab
  exact pyDate_key_inj (hvalid _ ha) (hvalid' _ hb) (le_antisymm h1 h2)

lemma pyMax_eq_of_perm {d d' : PyDate} {ds ds' : List PyDate}
    (hperm : List.Perm (d :: ds) (d' :: ds'))
    (hvalid : ∀ x ∈ d :: ds, x.valid) (hvalid' : ∀ x ∈ d' :: ds', x.valid) :
    pyMax d ds = pyMax d' ds' := by
  have ha := pyMax_mem d ds
  have hb := pyMax_mem d' ds'
  have hab : pyMax d ds ∈ d' :: ds' := hperm.mem_iff.1 ha
  have hba : pyMax d' ds' ∈ d :: ds := hperm.mem_iff.2 hb
  have h1 : (pyMax d' ds').key ≤ (pyMax d ds).key := pyMax_key_ge d ds _ hba
  have h2 : (pyMax d ds).key ≤ (pyMax d' ds').key := pyMax_key_ge d' ds' _ hab
  exact pyDate_key_inj (hvalid _ ha) (hvalid' _ hb) (le_antisymm h2 h1)

/-- Claim C10: whenever `_get_date_range` returns a result, the returned pair
satisfies `min_date ≤ max_date`; and the result depends only on the multiset
of rows, so permuting the input rows leaves the result unchanged. -/
theorem c10_range_ordered_and_permutation_invariant :
    (∀ (rows : List Row) (mn mx : PyDate),
       IOM.getDateRange rows = Except.ok (mn, mx) → mn ≤ mx)
  ∧ (∀ rows rows' : List Row, List.Perm rows rows' →
       IOM.getDateRange rows = IOM.getDateRange rows') := by
  constructor
  · intro rows mn mx h
    cases hc : (IOM.collectDates rows).1 with
    | nil =>
      rw [IOM.getDateRange_empty rows hc] at h
      cases h
    | cons d ds =>
      rw [IOM.getDateRange_ok rows d ds hc] at h
      cases h
      exact pyMin_key_le d ds _ (pyMax_mem d ds)
  · intro rows rows' hperm
    have hp : List.Perm (IOM.collectDates rows).1 (IOM.collectDates rows').1 := by
      rw [IOM.collectDates_fst, IOM.collectDates_fst]
      exact hperm.filterMap _
    cases hc : (IOM.collectDates rows).1 with
    | nil =>
      rw [hc] at hp
      have hc' : (IOM.collectDates rows').1 = [] := hp.symm.eq_nil
      rw [IOM.getDateRange_empty rows hc, IOM.getDateRange_empty rows' hc']
    | cons d ds =>
      rw [hc] at hp
      cases hc' : (IOM.collectDates rows').1 with
      | nil =>
        rw [hc'] at hp
        cases hp.eq_nil
      | cons d' ds' =>
        rw [hc'] at hp
        have hvalid : ∀ x ∈ d :: ds, x.valid := by
          rw [← hc]
          exact IOM.collectDates_fst_valid rows
        have hvalid' : ∀ x ∈ d' :: ds', x.valid := by
          rw [← hc']
          exact IOM.collectDates_fst_valid rows'
        rw [IOM.getDateRange_ok rows d ds hc, IOM.getDateRange_ok rows' d' ds' hc',
          pyMin_eq_of_perm hp hvalid hvalid', pyMax_eq_of_perm hp hvalid hvalid']

/-- Witness for C10 at concrete inputs: ordered result on a two-row
collection, and invariance under swapping the two rows. -/
theorem c10_witness :
    ((⟨2013, 1, 2⟩ : PyDate) ≤ ⟨2014, 12, 31⟩)
  ∧ IOM.getDateRange
        [[("reported_date", "2014-12-31")], [("reported_date", "2013-01-02")]]
      = IOM.getDateRange
        [[("reported_date", "2013-01-02")], [("reported_date", "2014-12-31")]] :=
  ⟨c10_range_ordered_and_permutation_invariant.1
      [[("reported_date", "2014-12-31")], [("reported_date", "2013-01-02")]]
      ⟨2013, 1, 2⟩ ⟨2014, 12, 31⟩ rfl,
   c10_range_ordered_and_permutation_invariant.2
      [[("reported_date", "2014-12-31")], [("reported_date", "2013-01-02")]]
      [[("reported_date", "2013-01-02")], [("reported_date", "2014-12-31")]]
      (List.Perm.swap _ _ _)⟩

/-- Counterexample to C1 as stated: on a collection whose only row has no
parseable date, `_get_date_range` fails through the uncaught `ValueError`
raised by the implicit `min` reduction over the empty parsed-date list, which
is not an explicit "no valid dates found" error. -/
theorem c1_counterexample :
    IOM.getDateRange [[("web_id", "2014.MMP01037")]]
      = Except.error (PyErr.valueError "min() arg is an empty sequence")
  ∧ PyErr.valueError "min() arg is an empty sequence"
      ≠ PyErr.valueError "no valid dates found" :=
  ⟨rfl, by decide⟩

/-- Claim C1 amended: for every input row collection in which zero rows have
a successfully parseable date field, `_get_date_range` fails — by the
uncaught `ValueError` of the implicit `min` reduction over the empty
parsed-date collection — rather than returning a sentinel value; no explicit
"no valid dates found" error is raised. -/
theorem c1_amended_empty_reduction_error (rows : List Row)
    (h : ∀ row ∈ rows, IOM.rowDate? row = none) :
    IOM.getDateRange rows
      = Except.error (PyErr.valueError "min() arg is an empty sequence") := by
  apply IOM.getDateRange_empty
  rw [IOM.collectDates_fst]
  exact List.filterMap_eq_nil_iff.2 h

/-- Witness for the amended C1 at a concrete dateless collection. -/
theorem c1_witness :
    IOM.getDateRange [[("region", "North America")], [("reported_date", "")]]
      = Except.error (PyErr.valueError "min() arg is an empty sequence") :=
  c1_amended_empty_reduction_error
    [[("region", "North America")], [("reported_date", "")]] (by decide)

/-- Counterexample to C4 as stated: on an empty aggregate row collection,
`generate_dataset` fails through the date-range reduction's uncaught
`ValueError`, not through an explicit "no usable rows" precondition error. -/
theorem c4_counterexample :
    IOM.generateDataset ["migration"] []
      = Except.error (PyErr.valueError "min() arg is an empty sequence")
  ∧ PyErr.valueError "min() arg is an empty sequence"
      ≠ PyErr.valueError "no usable rows" :=
  ⟨rfl, by decide⟩

/-- Claim C4 amended: for an empty aggregate row collection,
`generate_dataset` fails before any column-header derivation or resource
generation is attempted, but with the uncaught `ValueError` of the empty
date-range reduction rather than an explicit "no usable rows" precondition
error. -/
theorem c4_amended_empty_rows_error (tags : List String) :
    IOM.generateDataset tags []
      = Except.error (PyErr.valueError "min() arg is an empty sequence") := rfl
